import Mathlib

/-!
Shallow embedding of the georeferencing and coordinate-alignment core of the
GeoPoint-Logger application (src/src/utils.py, src/src/data_handler.py,
src/src/map_display.py), with theorems settling the specification claims.

Numbers are modelled with ℚ (Python floats, used exactly in all inputs of
interest).  Python exceptions are modelled with Option (none = the call raised
and produced no value).  External library capabilities (float literal parsing,
geopandas reprojection, the cv2 colour pipeline) are abstract parameters.
-/

/-- A rasterio-style affine transform, as built by the affine library
constructor Affine(a, b, c, d, e, f): the forward map is
x = a*col + b*row + c and y = d*col + e*row + f. -/
structure Affine where
  a : ℚ
  b : ℚ
  c : ℚ
  d : ℚ
  e : ℚ
  f : ℚ
deriving DecidableEq, Repr

/-- Forward pixel-to-world mapping of an affine transform. -/
def Affine.applyMap (t : Affine) (col row : ℚ) : ℚ × ℚ :=
  (t.a * col + t.b * row + t.c, t.d * col + t.e * row + t.f)

/-- Determinant of the linear part of the transform. -/
def Affine.detLin (t : Affine) : ℚ :=
  t.a * t.e - t.b * t.d

/-- World-file parameters as the tuple returned by parse_world_file:
(pixel_width, rotation_y, rotation_x, pixel_height, top_left_x, top_left_y),
i.e. the six on-disk lines A, D, B, E, C, F in order. -/
abbrev WorldParams : Type := ℚ × ℚ × ℚ × ℚ × ℚ × ℚ

/-- Embedding of utils.create_geospatial_transform (identical inline code in
data_handler.load_georef_image, lines 68-76): destructures the tuple as
(pixel_width, rotation_y, rotation_x, pixel_height, top_left_x_c, top_left_y_c),
computes x0 = C - 0.5*pixel_width - 0.5*rotation_y and
y0 = F - 0.5*rotation_x - 0.5*pixel_height, and returns
Affine(pixel_width, rotation_y, x0, rotation_x, pixel_height, y0).
There is no validation of any kind in the source: every tuple of six numbers
produces a transform. -/
def create_geospatial_transform (p : WorldParams) : Affine :=
  let (pixel_width, rot_y, rot_x, pixel_height, top_left_x_c, top_left_y_c) := p
  let x0 := top_left_x_c - (1/2) * pixel_width - (1/2) * rot_y
  let y0 := top_left_y_c - (1/2) * rot_x - (1/2) * pixel_height
  ⟨pixel_width, rot_y, x0, rot_x, pixel_height, y0⟩

/-- Embedding of utils.calculate_zoom_range.  Python raises ZeroDivisionError
when zoom_factor is 0 (modelled as none); otherwise it divides the base ranges
by the factor and clamps each result up to min_range. -/
def calculate_zoom_range (base_range_x base_range_y zoom_factor min_range : ℚ) :
    Option (ℚ × ℚ) :=
  if zoom_factor = 0 then none
  else
    let xlim_range := base_range_x / zoom_factor
    let ylim_range := base_range_y / zoom_factor
    some (max xlim_range min_range, max ylim_range min_range)

/-- Embedding of MapVisualizer.zoom_to_point (map_display.py lines 275-296):
base ranges are the constants 500.0, min_range is 1.0, and the axis limits
(xmin, xmax, ymin, ymax) are centred on the given point.  The value none
models the uncaught ZeroDivisionError for zoom_factor = 0; in every other
case the limits are set. -/
def zoom_to_point (x y zoom_factor : ℚ) : Option (ℚ × ℚ × ℚ × ℚ) :=
  match calculate_zoom_range 500 500 zoom_factor 1 with
  | none => none
  | some (xlim_range, ylim_range) =>
      some (x - xlim_range / 2, x + xlim_range / 2,
            y - ylim_range / 2, y + ylim_range / 2)

/-- Model of the Python str.strip used on each world-file line: whitespace
removed from both ends (executable, unlike String.trim). -/
def pyStrip (s : String) : String :=
  ⟨((s.data.dropWhile Char.isWhitespace).reverse.dropWhile Char.isWhitespace).reverse⟩

/-- The non-blank lines of a world file, as computed by the source
(utils.parse_world_file line 80): every line is stripped and the blank
results are discarded. -/
def nonEmptyLines (lines : List String) : List String :=
  (lines.map pyStrip).filter (fun l => l != "")

/-- Core of utils.parse_world_file after blank-line filtering: require at
least six (non-blank) entries and parse the first six in strict order with
the float-literal reader pf, aborting with none on the first failure.  The
successful result is the tuple (A, D, B, E, C, F) of the six values in the
on-disk order. -/
def parse_six (pf : String → Option ℚ) : List String → Option WorldParams
  | l0 :: l1 :: l2 :: l3 :: l4 :: l5 :: _ =>
      match pf l0, pf l1, pf l2, pf l3, pf l4, pf l5 with
      | some a, some d, some b, some e, some c, some f => some (a, d, b, e, c, f)
      | _, _, _, _, _, _ => none
  | _ => none

/-- Embedding of utils.parse_world_file (lines 63-106), identical to the
inline copy in data_handler._load_world_file (lines 165-207): split the file
content into lines, strip and drop blank lines, then parse the first six.
The float-literal grammar of Python float() is the abstract parameter pf. -/
def parse_world_file (pf : String → Option ℚ) (lines : List String) :
    Option WorldParams :=
  parse_six pf (nonEmptyLines lines)

example : create_geospatial_transform (10, 0, 0, -10, 200005, 700005) =
    ⟨10, 0, 200000, 0, -10, 700010⟩ := by
  simp [create_geospatial_transform]
  norm_num

example : zoom_to_point 0 0 (-2) = some (-(1/2), 1/2, -(1/2), 1/2) := by
  simp [zoom_to_point, calculate_zoom_range]
  norm_num

example : zoom_to_point 0 0 0 = none := by
  simp [zoom_to_point, calculate_zoom_range]

/-- An in-memory rasterio dataset as produced by load_georef_image: pixel
dimensions, the affine transform, and the CRS tag written into the profile. -/
structure RasterDataset where
  width : Nat
  height : Nat
  transform : Affine
  crs : String
deriving DecidableEq, Repr

/-- The vector layer (geopandas GeoDataFrame) as far as the claims need it:
an optional CRS tag (none models a falsy crs attribute) and the feature
count. -/
structure GeoDataFrame where
  crs : Option String
  nFeatures : Nat
deriving DecidableEq, Repr

/-- Observable outcome of MapVisualizer.draw_shapefile for one call:
whether gdf.to_crs was invoked, whether that invocation raised (the source
prints a warning in that case), and which layer was handed to plot. -/
structure ShapefileDraw where
  reprojectInvoked : Bool
  reprojectFailed : Bool
  plotted : GeoDataFrame
deriving DecidableEq, Repr

/-- Embedding of MapVisualizer.draw_shapefile (map_display.py lines 197-243).
The external geopandas reprojection gdf.to_crs is the abstract parameter
toCrs; toCrs g ic = none models the call raising.  image_datasets is the
visualizer's list of per-image rasterio datasets (none = image loaded without
georeferencing); the source consults only image_datasets[0].  The result is
none when nothing is drawn (no vector layer or an empty one); otherwise the
draw completes and returns what was plotted. -/
def draw_shapefile (toCrs : GeoDataFrame → String → Option GeoDataFrame)
    (image_datasets : List (Option RasterDataset)) (gdf : Option GeoDataFrame) :
    Option ShapefileDraw :=
  match gdf with
  | none => none
  | some g =>
    if g.nFeatures = 0 then none
    else
      match image_datasets.head? with
      | some (some ds) =>
        let img_crs := ds.crs
        match g.crs with
        | some vcrs =>
          if vcrs ≠ img_crs then
            match toCrs g img_crs with
            | some g2 => some ⟨true, false, g2⟩
            | none => some ⟨true, true, g⟩
          else some ⟨false, false, g⟩
        | none => some ⟨false, false, g⟩
      | _ => some ⟨false, false, g⟩

/-- Embedding of the axis-limit computation of MapVisualizer.draw_image
(map_display.py lines 178-193): map the four pixel corners
(0,0), (w,0), (w,h), (0,h) through the dataset transform, then set
xlim = (min xs, max xs) and ylim = (min ys, max ys).  Returned as
((xmin, xmax), (ymin, ymax)). -/
def draw_image_bounds (t : Affine) (w h : ℚ) : (ℚ × ℚ) × (ℚ × ℚ) :=
  let p0 := t.applyMap 0 0
  let p1 := t.applyMap w 0
  let p2 := t.applyMap w h
  let p3 := t.applyMap 0 h
  ((min (min (min p0.1 p1.1) p2.1) p3.1, max (max (max p0.1 p1.1) p2.1) p3.1),
   (min (min (min p0.2 p1.2) p2.2) p3.2, max (max (max p0.2 p1.2) p2.2) p3.2))

/-- The four pixel-space corners of a w times h image, in the order the
source lists them. -/
def footprintCorners (w h : ℚ) : List (ℚ × ℚ) :=
  [(0, 0), (w, 0), (w, h), (0, h)]

/-- Navigation state of GeospatialDataHandler: nFeatures is none when no
shapefile is loaded (gdf is None), some n for a loaded collection of n
features; current_index is a Python int. -/
structure DataHandler where
  nFeatures : Option Nat
  current_index : Int
deriving DecidableEq, Repr

/-- Embedding of GeospatialDataHandler.set_current_index (data_handler.py
lines 231-236): accept the index only when a collection is loaded and
0 <= index < len(gdf); otherwise return False and leave the state alone.
move_to_index (line 256-258) is literally this function. -/
def set_current_index (s : DataHandler) (index : Int) : DataHandler × Bool :=
  match s.nFeatures with
  | some n =>
      if 0 ≤ index ∧ index < (n : Int) then ({ s with current_index := index }, true)
      else (s, false)
  | none => (s, false)

/-- Embedding of GeospatialDataHandler.move_next (lines 242-247):
current_index := (current_index + 1) % len(gdf), using the Python modulo
(nonnegative result for a positive modulus, which Int.emod matches). -/
def move_next (s : DataHandler) : DataHandler × Bool :=
  match s.nFeatures with
  | some n =>
      if 0 < n then ({ s with current_index := (s.current_index + 1) % (n : Int) }, true)
      else (s, false)
  | none => (s, false)

/-- Embedding of GeospatialDataHandler.move_previous (lines 249-254):
current_index := (current_index - 1) % len(gdf). -/
def move_previous (s : DataHandler) : DataHandler × Bool :=
  match s.nFeatures with
  | some n =>
      if 0 < n then ({ s with current_index := (s.current_index - 1) % (n : Int) }, true)
      else (s, false)
  | none => (s, false)

/-- State of MapVisualizer as far as the adjustment pipeline reads it:
the stored original pixel buffers (flattened byte values, as rationals;
none models a missing image) and the four slider settings. -/
structure VisualizerState where
  original_image_datas : List (Option (List ℚ))
  brightness : ℚ
  contrast : ℚ
  saturation : ℚ
  threshold : ℚ
deriving DecidableEq, Repr

/-- The np.clip(img, 0, 255) applied per pixel. -/
def clipByte (v : ℚ) : ℚ := min (max v 0) 255

/-- The astype(np.uint8) cast applied per pixel.  On the adjusted path the
value was already clipped to [0, 255], where the C float-to-unsigned cast is
truncation, i.e. the floor of a nonnegative value; on the untouched path the
values are the bytes of the original uint8 image and the cast is the
identity, which floor also is on integers. -/
def toByte (v : ℚ) : ℚ := ((⌊v⌋ : ℤ) : ℚ)

/-- Embedding of MapVisualizer._apply_image_settings (map_display.py lines
99-131).  The first statement of the source copies the input
(img = img.copy().astype(np.float32)) and every later statement rebinds img
to a freshly produced array, so the function is a pure map from the input
buffer and the slider settings to a new buffer.  The cv2 HSV saturation
stage and the cv2 threshold stage are the abstract parameters satPipeline
and thrPipeline (each consumes the current buffer and the slider value). -/
def apply_image_settings (satPipeline thrPipeline : List ℚ → ℚ → List ℚ)
    (st : VisualizerState) (img : Option (List ℚ)) : Option (List ℚ) :=
  match img with
  | none => none
  | some px0 =>
    let px1 :=
      if st.brightness ≠ 50 ∨ st.contrast ≠ 50 then
        let brightness := (st.brightness - 50) * 2
        let contrast := st.contrast / 50
        px0.map (fun v => clipByte (v * contrast + brightness))
      else px0
    let px2 := px1.map toByte
    let px3 := if st.saturation ≠ 50 then satPipeline px2 st.saturation else px2
    let px4 := if 0 < st.threshold then thrPipeline px3 st.threshold else px3
    some px4

/-- The adjustment step of MapVisualizer.draw_image (line 174):
img = self._apply_image_settings(self.original_image_datas[i]).  The state is
threaded explicitly; _apply_image_settings assigns no attribute of self and
mutates no array in place, so the state comes back as it went in. -/
def render_adjusted (satPipeline thrPipeline : List ℚ → ℚ → List ℚ)
    (st : VisualizerState) (i : Nat) : VisualizerState × Option (List ℚ) :=
  (st, apply_image_settings satPipeline thrPipeline st
        (st.original_image_datas.getD i none))

/-- Embedding of MapVisualizer.set_brightness (lines 138-141) without the
redraw side effect: the slider value is stored, nothing else changes. -/
def set_brightness (st : VisualizerState) (v : ℚ) : VisualizerState :=
  { st with brightness := v }

/-- Result of GeospatialDataHandler.load_georef_image as far as the claims
need it: whether the call reported success and the dataset created (none
when the image was loaded without georeferencing). -/
structure LoadResult where
  success : Bool
  image_dataset : Option RasterDataset
deriving DecidableEq, Repr

/-- Embedding of data_handler._load_world_file (lines 165-207) given the
text of the located world file (found = none models no sidecar file).  The
Israeli-Grid envelope check on (C, F) at lines 192-196 only selects a log
message; the returned parameters are the parse result either way. -/
def load_world_file (pf : String → Option ℚ)
    (found : Option (List String)) : Option WorldParams × String :=
  match found with
  | none => (none, "No world file found")
  | some lines =>
    match parse_world_file pf lines with
    | some p =>
      let msg :=
        if 200000 < p.2.2.2.2.1 ∧ p.2.2.2.2.1 < 350000 ∧
           500000 < p.2.2.2.2.2 ∧ p.2.2.2.2.2 < 850000 then
          "World file coordinates appear to be in Israeli Grid system"
        else
          "World file coordinates are outside expected Israeli Grid range"
      (some p, msg)
    | none => (none, "World file parse failed")

/-- Embedding of GeospatialDataHandler.load_georef_image (data_handler.py
lines 44-122) for an image PIL can open, given the located world file text.
When world-file parameters are present, a memory dataset is created whose
transform is derived by the half-pixel correction and whose profile
hard-codes crs = "EPSG:2039" (line 88); otherwise the image is kept with no
dataset.  Both paths report success. -/
def load_georef_image (pf : String → Option ℚ) (found : Option (List String))
    (width height : Nat) : LoadResult :=
  match (load_world_file pf found).1 with
  | some p =>
      { success := true
        image_dataset := some
          { width := width, height := height
            transform := create_geospatial_transform p, crs := "EPSG:2039" } }
  | none => { success := true, image_dataset := none }

/-! Theorems settling the claims. -/

/-- C1: the claim states the corner origin is (C - 0.5*A - 0.5*B,
F - 0.5*D - 0.5*E) for on-disk values (A, D, B, E, C, F).  The source instead
computes x0 = C - 0.5*A - 0.5*D and y0 = F - 0.5*B - 0.5*E, swapping the two
rotation coefficients, even though its own comment labels D the y-rotation
and B the x-rotation and says the goal is the corner expected by GDAL.  At
the world file (A, D, B, E, C, F) = (1, 2, 3, 4, 10, 20) the produced corner
origin is (17/2, 33/2) while the claimed formula yields (8, 17). -/
theorem create_geospatial_transform_origin_swaps_rotations :
    ((create_geospatial_transform (1, 2, 3, 4, 10, 20)).c,
        (create_geospatial_transform (1, 2, 3, 4, 10, 20)).f) = (17/2, 33/2) ∧
      ((10 : ℚ) - (1/2) * 1 - (1/2) * 3, (20 : ℚ) - (1/2) * 2 - (1/2) * 4) =
        ((8 : ℚ), (17 : ℚ)) ∧
      ((create_geospatial_transform (1, 2, 3, 4, 10, 20)).c,
        (create_geospatial_transform (1, 2, 3, 4, 10, 20)).f) ≠
        ((10 : ℚ) - (1/2) * 1 - (1/2) * 3, (20 : ℚ) - (1/2) * 2 - (1/2) * 4) := by
  refine ⟨?_, ?_, ?_⟩ <;> simp [create_geospatial_transform] <;> norm_num

/-- C2 counterexample: zoom_to_point with the non-positive zoom factor -2 is
not rejected; the view window is computed (the negative ranges are clamped up
to min_range = 1) and the axis limits are set. -/
theorem zoom_to_point_negative_factor_sets_limits :
    zoom_to_point 0 0 (-2) = some (-(1/2), 1/2, -(1/2), 1/2) := by
  have hmax : max ((500 : ℚ) / (-2)) 1 = 1 := by norm_num
  simp [zoom_to_point, calculate_zoom_range, hmax]

/-- C2 amended: zoom_to_point performs no input validation.  For every
negative zoom factor the ranges 500 / zoom_factor are negative, are clamped
up to the minimum range 1, and axis limits of width 1 centred on the point
are set; for zoom factor 0 the range computation raises ZeroDivisionError
(no limits are set, but not by rejection). -/
theorem zoom_to_point_no_validation (x y z : ℚ) (hz : z < 0) :
    zoom_to_point x y z = some (x - 1/2, x + 1/2, y - 1/2, y + 1/2) ∧
      zoom_to_point x y 0 = none := by
  constructor
  · have h0 : z ≠ 0 := ne_of_lt hz
    have hneg : (500 : ℚ) / z < 0 := div_neg_of_pos_of_neg (by norm_num) hz
    have hmax : max ((500 : ℚ) / z) 1 = 1 :=
      max_eq_right (le_of_lt (lt_trans hneg (by norm_num)))
    simp [zoom_to_point, calculate_zoom_range, h0, hmax]
  · simp [zoom_to_point, calculate_zoom_range]

/-- C2 witness: the amended statement at the concrete point (3, 4) and zoom
factor -5. -/
theorem zoom_to_point_no_validation_witness :
    zoom_to_point 3 4 (-5) = some (3 - 1/2, 3 + 1/2, 4 - 1/2, 4 + 1/2) ∧
      zoom_to_point 3 4 0 = none :=
  zoom_to_point_no_validation 3 4 (-5) (by norm_num)

/-- C3 counterexample: the parameter tuple (0, 0, 0, 0, 5, 7) has zero pixel
size, yet construction does not fail; it returns the degenerate transform
Affine(0, 0, 5, 0, 0, 7), whose linear determinant is 0. -/
theorem create_geospatial_transform_accepts_degenerate :
    create_geospatial_transform (0, 0, 0, 0, 5, 7) = ⟨0, 0, 5, 0, 0, 7⟩ ∧
      (create_geospatial_transform (0, 0, 0, 0, 5, 7)).detLin = 0 := by
  constructor <;> simp [create_geospatial_transform, Affine.detLin]

/-- C3 amended: construction performs no invertibility check and never
fails.  Every zero-pixel-size tuple (0, 0, 0, 0, c, f) is accepted and
yields the transform Affine(0, 0, c, 0, 0, f) with linear determinant 0
(a degenerate transform is returned, not an error). -/
theorem create_geospatial_transform_total_on_degenerate (c f : ℚ) :
    create_geospatial_transform (0, 0, 0, 0, c, f) = ⟨0, 0, c, 0, 0, f⟩ ∧
      (create_geospatial_transform (0, 0, 0, 0, c, f)).detLin = 0 := by
  constructor <;> simp [create_geospatial_transform, Affine.detLin]

/-- Success of parse_six is equivalent to having at least six entries whose
first six all parse. -/
theorem parse_six_isSome_iff (pf : String → Option ℚ) (k : List String) :
    (parse_six pf k).isSome ↔
      6 ≤ k.length ∧ ∀ s ∈ k.take 6, (pf s).isSome := by
  rcases k with _ | ⟨l0, _ | ⟨l1, _ | ⟨l2, _ | ⟨l3, _ | ⟨l4, _ | ⟨l5, rest⟩⟩⟩⟩⟩⟩
  · simp [parse_six]
  · simp [parse_six]
  · simp [parse_six]
  · simp [parse_six]
  · simp [parse_six]
  · simp [parse_six]
  · cases h0 : pf l0 <;> cases h1 : pf l1 <;> cases h2 : pf l2 <;>
      cases h3 : pf l3 <;> cases h4 : pf l4 <;> cases h5 : pf l5 <;>
      simp [parse_six, h0, h1, h2, h3, h4, h5, Nat.le_add_left]

/-- A successful parse_six returns exactly the parses of the first six
entries, in order. -/
theorem parse_six_eq_some (pf : String → Option ℚ) (k : List String)
    (a d b e c f : ℚ) (h : parse_six pf k = some (a, d, b, e, c, f)) :
    (k.take 6).map pf = [some a, some d, some b, some e, some c, some f] := by
  rcases k with _ | ⟨l0, _ | ⟨l1, _ | ⟨l2, _ | ⟨l3, _ | ⟨l4, _ | ⟨l5, rest⟩⟩⟩⟩⟩⟩
  · simp [parse_six] at h
  · simp [parse_six] at h
  · simp [parse_six] at h
  · simp [parse_six] at h
  · simp [parse_six] at h
  · simp [parse_six] at h
  · cases h0 : pf l0 <;> cases h1 : pf l1 <;> cases h2 : pf l2 <;>
      cases h3 : pf l3 <;> cases h4 : pf l4 <;> cases h5 : pf l5 <;>
      simp [parse_six, h0, h1, h2, h3, h4, h5] at h <;>
      obtain ⟨rfl, rfl, rfl, rfl, rfl, rfl⟩ := h <;>
      simp [h0, h1, h2, h3, h4, h5]

/-- parse_six ignores everything after the sixth entry. -/
theorem parse_six_append (pf : String → Option ℚ) (k m : List String)
    (h : 6 ≤ k.length) : parse_six pf (k ++ m) = parse_six pf k := by
  rcases k with _ | ⟨l0, _ | ⟨l1, _ | ⟨l2, _ | ⟨l3, _ | ⟨l4, _ | ⟨l5, rest⟩⟩⟩⟩⟩⟩
  · simp at h
  · simp at h
  · simp at h
  · simp at h
  · simp at h
  · simp at h
  · rfl

/-- Blank-line filtering distributes over appending lines. -/
theorem nonEmptyLines_append (xs ys : List String) :
    nonEmptyLines (xs ++ ys) = nonEmptyLines xs ++ nonEmptyLines ys := by
  simp [nonEmptyLines]

/-- C4: parsing returns the six floats taken in order from the first six
non-blank lines exactly when there are at least six non-blank lines and each
of those six parses; in every other case it returns none, and content after
the sixth non-blank line never affects the result. -/
theorem parse_world_file_contract (pf : String → Option ℚ) (lines : List String) :
    ((parse_world_file pf lines).isSome ↔
        6 ≤ (nonEmptyLines lines).length ∧
          ∀ s ∈ (nonEmptyLines lines).take 6, (pf s).isSome) ∧
      (∀ a d b e c f : ℚ, parse_world_file pf lines = some (a, d, b, e, c, f) →
        ((nonEmptyLines lines).take 6).map pf =
          [some a, some d, some b, some e, some c, some f]) ∧
      (∀ extra : List String, 6 ≤ (nonEmptyLines lines).length →
        parse_world_file pf (lines ++ extra) = parse_world_file pf lines) := by
  refine ⟨parse_six_isSome_iff pf _,
    fun a d b e c f h => parse_six_eq_some pf _ a d b e c f h, ?_⟩
  intro extra hlen
  unfold parse_world_file
  rw [nonEmptyLines_append]
  exact parse_six_append pf _ _ hlen

/-- Reader for the concrete float literals used in the witnesses. -/
def pfDigits : String → Option ℚ := fun s =>
  if s = "1" then some 1 else if s = "2" then some 2 else if s = "3" then some 3
  else if s = "4" then some 4 else if s = "5" then some 5 else if s = "6" then some 6
  else none

/-- C4 witness: a concrete seven-line file (with a blank line and trailing
junk) parses identically with and without the junk line. -/
theorem parse_world_file_contract_witness :
    parse_world_file pfDigits ["1", "", "2", "3", "4", "5", "6", "junk"] =
      parse_world_file pfDigits ["1", "", "2", "3", "4", "5", "6"] :=
  (parse_world_file_contract pfDigits ["1", "", "2", "3", "4", "5", "6"]).2.2
    ["junk"] (by decide)

/-- C5: with a non-empty vector layer, the draw always completes, gdf.to_crs
is invoked exactly when the first loaded raster has a dataset whose CRS
differs from a present vector CRS, and whenever it is not invoked the vector
layer is plotted in its own stated coordinates. -/
theorem draw_shapefile_reprojection_iff
    (toCrs : GeoDataFrame → String → Option GeoDataFrame)
    (dss : List (Option RasterDataset)) (g : GeoDataFrame)
    (hg : 0 < g.nFeatures) :
    ∃ r, draw_shapefile toCrs dss (some g) = some r ∧
      (r.reprojectInvoked = true ↔
        ∃ ds, dss.head? = some (some ds) ∧
          ∃ vcrs, g.crs = some vcrs ∧ vcrs ≠ ds.crs) ∧
      (r.reprojectInvoked = false → r.plotted = g) := by
  have hne : ¬ g.nFeatures = 0 := Nat.pos_iff_ne_zero.mp hg
  rcases hd : dss.head? with _ | od
  · exact ⟨⟨false, false, g⟩, by simp [draw_shapefile, hne, hd], by simp [hd],
      fun _ => rfl⟩
  · rcases od with _ | ds
    · exact ⟨⟨false, false, g⟩, by simp [draw_shapefile, hne, hd], by simp [hd],
        fun _ => rfl⟩
    · rcases hv : g.crs with _ | vcrs
      · exact ⟨⟨false, false, g⟩, by simp [draw_shapefile, hne, hd, hv],
          by simp [hd, hv], fun _ => rfl⟩
      · by_cases hcmp : vcrs = ds.crs
        · exact ⟨⟨false, false, g⟩, by simp [draw_shapefile, hne, hd, hv, hcmp],
            by simp [hd, hv, hcmp], fun _ => rfl⟩
        · rcases ht : toCrs g ds.crs with _ | g2
          · exact ⟨⟨true, true, g⟩,
              by simp [draw_shapefile, hne, hd, hv, hcmp, ht],
              by simp [hd, hv, hcmp], by simp⟩
          · exact ⟨⟨true, false, g2⟩,
              by simp [draw_shapefile, hne, hd, hv, hcmp, ht],
              by simp [hd, hv, hcmp], by simp⟩

/-- A reprojection capability that always succeeds, retagging the layer with
the target CRS; used only in witnesses. -/
def toCrsOk : GeoDataFrame → String → Option GeoDataFrame := fun g ic =>
  some { crs := some ic, nFeatures := g.nFeatures }

/-- A reprojection capability that always raises; used only in witnesses. -/
def toCrsFail : GeoDataFrame → String → Option GeoDataFrame := fun _ _ => none

/-- The raster dataset used in witnesses: Israeli grid CRS tag. -/
def dsITM : RasterDataset :=
  { width := 100, height := 100,
    transform := create_geospatial_transform (10, 0, 0, -10, 200005, 700005),
    crs := "EPSG:2039" }

/-- The vector layer used in witnesses: three features tagged EPSG:4326. -/
def gdfWGS : GeoDataFrame := { crs := some ("EPSG:4326"), nFeatures := 3 }

/-- C5 witness: the characterization at a concrete raster, vector layer and
reprojection capability. -/
theorem draw_shapefile_reprojection_iff_witness :
    ∃ r, draw_shapefile toCrsOk [some dsITM] (some gdfWGS) = some r ∧
      (r.reprojectInvoked = true ↔
        ∃ ds, ([some dsITM] : List (Option RasterDataset)).head? = some (some ds) ∧
          ∃ vcrs, gdfWGS.crs = some vcrs ∧ vcrs ≠ ds.crs) ∧
      (r.reprojectInvoked = false → r.plotted = gdfWGS) :=
  draw_shapefile_reprojection_iff toCrsOk [some dsITM] gdfWGS (by decide)

/-- C6: when the CRS comparison calls for reprojection and gdf.to_crs raises,
the draw still completes, the warning state is reached, and the original
unreprojected vector layer is the one plotted. -/
theorem draw_shapefile_reprojection_fallback
    (toCrs : GeoDataFrame → String → Option GeoDataFrame)
    (dss : List (Option RasterDataset)) (ds : RasterDataset) (g : GeoDataFrame)
    (hg : 0 < g.nFeatures) (hd : dss.head? = some (some ds))
    (vcrs : String) (hv : g.crs = some vcrs) (hcmp : vcrs ≠ ds.crs)
    (hfail : toCrs g ds.crs = none) :
    draw_shapefile toCrs dss (some g) = some ⟨true, true, g⟩ := by
  have hne : ¬ g.nFeatures = 0 := Nat.pos_iff_ne_zero.mp hg
  simp [draw_shapefile, hne, hd, hv, hcmp, hfail]

/-- C6 witness: the fallback at a concrete raster, vector layer and failing
reprojection capability. -/
theorem draw_shapefile_reprojection_fallback_witness :
    draw_shapefile toCrsFail [some dsITM] (some gdfWGS) = some ⟨true, true, gdfWGS⟩ :=
  draw_shapefile_reprojection_fallback toCrsFail [some dsITM] dsITM gdfWGS
    (by decide) rfl ("EPSG:4326") rfl (by decide) rfl

/-- The four-fold minimum is a lower bound of each argument. -/
theorem min4_le_each (a b c d : ℚ) :
    min (min (min a b) c) d ≤ a ∧ min (min (min a b) c) d ≤ b ∧
      min (min (min a b) c) d ≤ c ∧ min (min (min a b) c) d ≤ d :=
  ⟨le_trans (min_le_left _ _) (le_trans (min_le_left _ _) (min_le_left _ _)),
   le_trans (min_le_left _ _) (le_trans (min_le_left _ _) (min_le_right _ _)),
   le_trans (min_le_left _ _) (min_le_right _ _),
   min_le_right _ _⟩

/-- The four-fold maximum is an upper bound of each argument. -/
theorem le_max4_each (a b c d : ℚ) :
    a ≤ max (max (max a b) c) d ∧ b ≤ max (max (max a b) c) d ∧
      c ≤ max (max (max a b) c) d ∧ d ≤ max (max (max a b) c) d :=
  ⟨le_trans (le_trans (le_max_left _ _) (le_max_left _ _)) (le_max_left _ _),
   le_trans (le_trans (le_max_right _ _) (le_max_left _ _)) (le_max_left _ _),
   le_trans (le_max_right _ _) (le_max_left _ _),
   le_max_right _ _⟩

/-- The four-fold minimum is attained at one of the arguments. -/
theorem min4_attained (a b c d : ℚ) :
    min (min (min a b) c) d = a ∨ min (min (min a b) c) d = b ∨
      min (min (min a b) c) d = c ∨ min (min (min a b) c) d = d := by
  rcases min_choice (min (min a b) c) d with h | h
  · rw [h]
    rcases min_choice (min a b) c with h2 | h2
    · rw [h2]
      rcases min_choice a b with h3 | h3
      · exact Or.inl h3
      · exact Or.inr (Or.inl h3)
    · exact Or.inr (Or.inr (Or.inl h2))
  · exact Or.inr (Or.inr (Or.inr h))

/-- The four-fold maximum is attained at one of the arguments. -/
theorem max4_attained (a b c d : ℚ) :
    max (max (max a b) c) d = a ∨ max (max (max a b) c) d = b ∨
      max (max (max a b) c) d = c ∨ max (max (max a b) c) d = d := by
  rcases max_choice (max (max a b) c) d with h | h
  · rw [h]
    rcases max_choice (max a b) c with h2 | h2
    · rw [h2]
      rcases max_choice a b with h3 | h3
      · exact Or.inl h3
      · exact Or.inr (Or.inl h3)
    · exact Or.inr (Or.inr (Or.inl h2))
  · exact Or.inr (Or.inr (Or.inr h))

/-- C7: for every affine transform, including rotated and sheared ones, the
axis limits computed by draw_image bound the x and y values of all four
mapped footprint corners, and each of the four limits is attained at one of
the four corners: the bounds are the min and max over all four mapped
corners, not over two opposite corners. -/
theorem draw_image_bounds_are_four_corner_envelope (t : Affine) (w h : ℚ) :
    (∀ p ∈ footprintCorners w h,
        (draw_image_bounds t w h).1.1 ≤ (t.applyMap p.1 p.2).1 ∧
          (t.applyMap p.1 p.2).1 ≤ (draw_image_bounds t w h).1.2 ∧
          (draw_image_bounds t w h).2.1 ≤ (t.applyMap p.1 p.2).2 ∧
          (t.applyMap p.1 p.2).2 ≤ (draw_image_bounds t w h).2.2) ∧
      ((∃ p ∈ footprintCorners w h,
          (t.applyMap p.1 p.2).1 = (draw_image_bounds t w h).1.1) ∧
        (∃ p ∈ footprintCorners w h,
          (t.applyMap p.1 p.2).1 = (draw_image_bounds t w h).1.2) ∧
        (∃ p ∈ footprintCorners w h,
          (t.applyMap p.1 p.2).2 = (draw_image_bounds t w h).2.1) ∧
        (∃ p ∈ footprintCorners w h,
          (t.applyMap p.1 p.2).2 = (draw_image_bounds t w h).2.2)) := by
  have hb : draw_image_bounds t w h =
      ((min (min (min (t.applyMap 0 0).1 (t.applyMap w 0).1)
          (t.applyMap w h).1) (t.applyMap 0 h).1,
        max (max (max (t.applyMap 0 0).1 (t.applyMap w 0).1)
          (t.applyMap w h).1) (t.applyMap 0 h).1),
       (min (min (min (t.applyMap 0 0).2 (t.applyMap w 0).2)
          (t.applyMap w h).2) (t.applyMap 0 h).2,
        max (max (max (t.applyMap 0 0).2 (t.applyMap w 0).2)
          (t.applyMap w h).2) (t.applyMap 0 h).2)) := rfl
  rw [hb]
  constructor
  · intro p hp
    simp only [footprintCorners, List.mem_cons, List.not_mem_nil, or_false] at hp
    rcases hp with rfl | rfl | rfl | rfl
    · exact ⟨(min4_le_each _ _ _ _).1, (le_max4_each _ _ _ _).1,
        (min4_le_each _ _ _ _).1, (le_max4_each _ _ _ _).1⟩
    · exact ⟨(min4_le_each _ _ _ _).2.1, (le_max4_each _ _ _ _).2.1,
        (min4_le_each _ _ _ _).2.1, (le_max4_each _ _ _ _).2.1⟩
    · exact ⟨(min4_le_each _ _ _ _).2.2.1, (le_max4_each _ _ _ _).2.2.1,
        (min4_le_each _ _ _ _).2.2.1, (le_max4_each _ _ _ _).2.2.1⟩
    · exact ⟨(min4_le_each _ _ _ _).2.2.2, (le_max4_each _ _ _ _).2.2.2,
        (min4_le_each _ _ _ _).2.2.2, (le_max4_each _ _ _ _).2.2.2⟩
  · refine ⟨?_, ?_, ?_, ?_⟩
    · rcases min4_attained (t.applyMap 0 0).1 (t.applyMap w 0).1
        (t.applyMap w h).1 (t.applyMap 0 h).1 with hm | hm | hm | hm
      · exact ⟨(0, 0), by simp [footprintCorners], hm.symm⟩
      · exact ⟨(w, 0), by simp [footprintCorners], hm.symm⟩
      · exact ⟨(w, h), by simp [footprintCorners], hm.symm⟩
      · exact ⟨(0, h), by simp [footprintCorners], hm.symm⟩
    · rcases max4_attained (t.applyMap 0 0).1 (t.applyMap w 0).1
        (t.applyMap w h).1 (t.applyMap 0 h).1 with hm | hm | hm | hm
      · exact ⟨(0, 0), by simp [footprintCorners], hm.symm⟩
      · exact ⟨(w, 0), by simp [footprintCorners], hm.symm⟩
      · exact ⟨(w, h), by simp [footprintCorners], hm.symm⟩
      · exact ⟨(0, h), by simp [footprintCorners], hm.symm⟩
    · rcases min4_attained (t.applyMap 0 0).2 (t.applyMap w 0).2
        (t.applyMap w h).2 (t.applyMap 0 h).2 with hm | hm | hm | hm
      · exact ⟨(0, 0), by simp [footprintCorners], hm.symm⟩
      · exact ⟨(w, 0), by simp [footprintCorners], hm.symm⟩
      · exact ⟨(w, h), by simp [footprintCorners], hm.symm⟩
      · exact ⟨(0, h), by simp [footprintCorners], hm.symm⟩
    · rcases max4_attained (t.applyMap 0 0).2 (t.applyMap w 0).2
        (t.applyMap w h).2 (t.applyMap 0 h).2 with hm | hm | hm | hm
      · exact ⟨(0, 0), by simp [footprintCorners], hm.symm⟩
      · exact ⟨(w, 0), by simp [footprintCorners], hm.symm⟩
      · exact ⟨(w, h), by simp [footprintCorners], hm.symm⟩
      · exact ⟨(0, h), by simp [footprintCorners], hm.symm⟩

/-- The 45-degree-style shear transform used in the C7 witness: its mapped
footprint corners are not axis-aligned, so two opposite corners alone would
give the wrong envelope. -/
def tShear : Affine := ⟨1, 1, 0, -1, 1, 0⟩

/-- C7 witness: the envelope inequalities at the concrete sheared transform,
extracted for the corner (10, 5), frame size 10 by 5. -/
theorem draw_image_bounds_are_four_corner_envelope_witness :
    (draw_image_bounds tShear 10 5).1.1 ≤ (tShear.applyMap 10 5).1 ∧
      (tShear.applyMap 10 5).1 ≤ (draw_image_bounds tShear 10 5).1.2 ∧
      (draw_image_bounds tShear 10 5).2.1 ≤ (tShear.applyMap 10 5).2 ∧
      (tShear.applyMap 10 5).2 ≤ (draw_image_bounds tShear 10 5).2.2 :=
  (draw_image_bounds_are_four_corner_envelope tShear 10 5).1 (10, 5)
    (by simp [footprintCorners])

/-- C8: for a loaded non-empty collection with an in-range index, every
navigation operation keeps the index in [0, n): move_next and move_previous
wrap via the modulo (next from the last feature reaches 0, previous from 0
reaches n - 1), an accepted explicit move lands on the requested in-range
index, and an out-of-range explicit move is rejected with the whole state
unchanged. -/
theorem navigation_index_invariant (s : DataHandler) (n : Nat)
    (hn : s.nFeatures = some n) (hpos : 0 < n)
    (hinv : 0 ≤ s.current_index ∧ s.current_index < (n : Int)) :
    (0 ≤ (move_next s).1.current_index ∧
        (move_next s).1.current_index < (n : Int)) ∧
      (0 ≤ (move_previous s).1.current_index ∧
        (move_previous s).1.current_index < (n : Int)) ∧
      (s.current_index = (n : Int) - 1 → (move_next s).1.current_index = 0) ∧
      (s.current_index = 0 → (move_previous s).1.current_index = (n : Int) - 1) ∧
      (∀ i : Int, ¬ (0 ≤ i ∧ i < (n : Int)) →
        (set_current_index s i).2 = false ∧ (set_current_index s i).1 = s ∧
          0 ≤ (set_current_index s i).1.current_index ∧
          (set_current_index s i).1.current_index < (n : Int)) ∧
      (∀ i : Int, 0 ≤ i → i < (n : Int) →
        (set_current_index s i).2 = true ∧
          (set_current_index s i).1.current_index = i) := by
  have hn0 : (n : Int) ≠ 0 := by exact_mod_cast Nat.pos_iff_ne_zero.mp hpos
  have hnpos : (0 : Int) < (n : Int) := by exact_mod_cast hpos
  refine ⟨?_, ?_, ?_, ?_, ?_, ?_⟩
  · simp only [move_next, hn, if_pos hpos]
    exact ⟨Int.emod_nonneg _ hn0, Int.emod_lt_of_pos _ hnpos⟩
  · simp only [move_previous, hn, if_pos hpos]
    exact ⟨Int.emod_nonneg _ hn0, Int.emod_lt_of_pos _ hnpos⟩
  · intro hlast
    simp only [move_next, hn, if_pos hpos, hlast]
    rw [sub_add_cancel, Int.emod_self]
  · intro hzero
    simp only [move_previous, hn, if_pos hpos, hzero]
    rw [zero_sub]
    have hrw : (-1 : Int) % (n : Int) = ((n : Int) - 1) % (n : Int) := by
      conv_lhs => rw [show (-1 : Int) = (n : Int) - 1 + (n : Int) * (-1) by ring]
      rw [Int.add_mul_emod_self_left]
    rw [hrw, Int.emod_eq_of_lt (by omega) (by omega)]
  · intro i hi
    simp [set_current_index, hn, if_neg hi]
    exact hinv
  · intro i hi0 hin
    simp [set_current_index, hn, if_pos (And.intro hi0 hin)]

/-- C8 witness: the wrap and rejection behaviour at the concrete state with
three features and current index 2. -/
theorem navigation_index_invariant_witness :
    ((move_next ⟨some 3, 2⟩).1.current_index = 0) ∧
      ((set_current_index ⟨some 3, 2⟩ 5).2 = false ∧
        (set_current_index ⟨some 3, 2⟩ 5).1 = ⟨some 3, 2⟩) :=
  ⟨(navigation_index_invariant ⟨some 3, 2⟩ 3 rfl (by decide)
        (by constructor <;> decide)).2.2.1 (by decide),
    ((navigation_index_invariant ⟨some 3, 2⟩ 3 rfl (by decide)
        (by constructor <;> decide)).2.2.2.2.1 5 (by decide)).1,
    ((navigation_index_invariant ⟨some 3, 2⟩ 3 rfl (by decide)
        (by constructor <;> decide)).2.2.2.2.1 5 (by decide)).2.1⟩

/-- C9: the adjustment pipeline leaves the visualizer state, in particular
the stored original pixel buffers, exactly as it found them; rendering twice
gives the same buffer; and after changing a slider the next render is the
pure pipeline applied to the same original buffer as before, not to the
previously adjusted output. -/
theorem render_adjusted_pure (satP thrP : List ℚ → ℚ → List ℚ)
    (st : VisualizerState) (i : Nat) (v : ℚ) :
    (render_adjusted satP thrP st i).1 = st ∧
      (render_adjusted satP thrP st i).1.original_image_datas =
        st.original_image_datas ∧
      (render_adjusted satP thrP ((render_adjusted satP thrP st i).1) i).2 =
        (render_adjusted satP thrP st i).2 ∧
      (render_adjusted satP thrP
          (set_brightness ((render_adjusted satP thrP st i).1) v) i).2 =
        apply_image_settings satP thrP (set_brightness st v)
          (st.original_image_datas.getD i none) := by
  exact ⟨rfl, rfl, rfl, rfl⟩

example :
    (render_adjusted (fun px _ => px) (fun px _ => px)
        ⟨[some [0, 100, 200]], 100, 50, 50, 0⟩ 0).2 = some [100, 200, 255] ∧
      (render_adjusted (fun px _ => px) (fun px _ => px)
        ⟨[some [0, 100, 200]], 100, 50, 50, 0⟩ 0).1.original_image_datas =
        [some [0, 100, 200]] := by
  constructor
  · simp [render_adjusted, apply_image_settings, clipByte, toByte]
    norm_num
  · rfl

/-- C10: whenever a found world file parses to parameters p, regardless of
the values of p, the load succeeds and the dataset is created with the
constant CRS tag EPSG:2039; the Israeli-Grid envelope check influences only
the log message, as the returned parameters equal the parse result in every
case. -/
theorem load_georef_image_constant_crs (pf : String → Option ℚ)
    (lines : List String) (w h : Nat) (p : WorldParams)
    (hp : parse_world_file pf lines = some p) :
    (load_world_file pf (some lines)).1 = some p ∧
      load_georef_image pf (some lines) w h =
        { success := true
          image_dataset := some
            { width := w, height := h
              transform := create_geospatial_transform p, crs := "EPSG:2039" } } := by
  constructor
  · simp [load_world_file, hp]
  · simp [load_georef_image, load_world_file, hp]

/-- C10 witness: a parsed world file whose upper-left coordinates (5, 6) lie
far outside the Israeli Grid envelope still yields a successful load with a
dataset tagged EPSG:2039. -/
theorem load_georef_image_constant_crs_witness :
    (load_world_file pfDigits (some ["1", "2", "3", "4", "5", "6"])).1 =
        some (1, 2, 3, 4, 5, 6) ∧
      load_georef_image pfDigits (some ["1", "2", "3", "4", "5", "6"]) 100 100 =
        { success := true
          image_dataset := some
            { width := 100, height := 100
              transform := create_geospatial_transform (1, 2, 3, 4, 5, 6)
              crs := "EPSG:2039" } } :=
  load_georef_image_constant_crs pfDigits ["1", "2", "3", "4", "5", "6"]
    100 100 (1, 2, 3, 4, 5, 6) (by decide)
